import Mathlib

/-!
Verification of the Smart-Canteen order lifecycle, admission control and
analytics logic, as a shallow embedding of the repository's JavaScript into
Lean 4.

Modelling conventions, used consistently below:
* JS strings are `String`; a JS field that may be absent is an `Option` (or,
  where the source only ever consults it through `||` falsiness, a `String`
  with `""` standing for the absent/empty value, noted at each use).
* JS numbers that the source only ever carries through arithmetic and
  comparisons are `ℚ` (`Rat`); where NaN/Infinity behaviour of `Number(..)`
  matters (the menu price guard) a dedicated `JSNumber` type models them.
* `Math.round` is `jsRound` (round half toward +∞), `Math.floor`-style
  truncation does not occur in the modelled code.
* Firestore timestamps are a record of epoch milliseconds plus the local
  hour that `toDate().getHours()` would report.
* A handler that either performs a single document write or refuses with a
  user-facing message is a function into `Option`/`Except String`:
  `none`/`error` is "no mutation performed, denial surfaced", and the value
  carried by `some`/`ok` is the exact document state (or created document)
  the write produces.  Firestore `updateDoc` merges the listed fields into
  the existing document, which is modelled by functional record update.
* Calendar-day keys (the `date` strings "YYYY-MM-DD") are modelled as `Int`
  day numbers; `daysAgoString n` is subtraction of `n`, and string
  comparison of ISO dates agrees with `Int` order on day numbers.
-/

/-- A Firestore timestamp: epoch milliseconds plus the local hour of day
that `toDate().getHours()` reports for it. -/
structure Timestamp where
  ms : Int
  hour : Nat
  deriving DecidableEq, Repr

/-- A loosely-typed JS value, as stored in the schemaless documents: the
`available` field of a menu item may be a string, a boolean, a number, or
absent (`undefined`). -/
inductive JsVal where
  | str (s : String)
  | bool (b : Bool)
  | num (q : ℚ)
  | undef
  deriving DecidableEq, Repr

/-- JS truthiness (`!!v`) of a `JsVal`: empty string, `false`, `0` and
`undefined` are falsy, everything else truthy. -/
def jsTruthy : JsVal → Bool
  | .str s => s ≠ ""
  | .bool b => b
  | .num q => q ≠ 0
  | .undef => false

/-- An order document, with the fields the modelled handlers read or write.
`date` is the calendar-day key (absent allowed), `createdAt`/`updatedAt`
the server-assigned timestamps (absent until the server fills them). -/
structure Order where
  itemId : Option String
  name : String
  price : ℚ
  userId : String
  status : String
  paymentStatus : String
  date : Option Int
  createdAt : Option Timestamp
  updatedAt : Option Timestamp
  deriving DecidableEq, Repr

/-- A menu item document.  `category` uses `""` for the absent value (the
source only reads it through `item.category || "Other"` / `|| "Lunch"`,
for which absent and empty behave identically). -/
structure MenuItem where
  id : Option String
  name : String
  price : ℚ
  category : String
  available : JsVal
  deriving DecidableEq, Repr

/-- `Math.round`: round half toward positive infinity. -/
def jsRound (q : ℚ) : Int := ⌊q + 1 / 2⌋

/-- `toLowerCase()` (character-wise lower-casing, as a structural list map
so that proofs can evaluate it). -/
def jsToLower (s : String) : String := ⟨s.data.map Char.toLower⟩

/-- `trim()`: drop leading and trailing whitespace. -/
def jsTrim (s : String) : String :=
  ⟨((s.data.dropWhile Char.isWhitespace).reverse.dropWhile Char.isWhitespace).reverse⟩

/-! ## Order state machine (src/pages/VendorOrdersPage.js) -/

/-- `canTransition` from VendorOrdersPage.js: the vendor-side transition
guard (switch on the current status; `Completed`, `Cancelled` and any
unknown status fall through to `false`). -/
def canTransition (currentStatus newStatus : String) : Bool :=
  match currentStatus with
  | "Prebooked" =>
      newStatus = "Preparing" || newStatus = "Ready" || newStatus = "Completed"
  | "Preparing" => newStatus = "Ready" || newStatus = "Completed"
  | "Ready" => newStatus = "Completed"
  | _ => false

/-- `updateStatus` from VendorOrdersPage.js: if the transition guard fails,
return without any write (`none`); otherwise `updateDoc(ref, { status:
newStatus })` merges exactly the `status` field into the document. -/
def updateStatus (order : Order) (newStatus : String) : Option Order :=
  if canTransition order.status newStatus then
    some { order with status := newStatus }
  else
    none

/-! ## Employee order actions (src/pages/EmployeePage.js; the same
definitions appear verbatim in the part_002 revision) -/

/-- `canCancelOrder`: an employee may cancel only while `Prebooked`. -/
def canCancelOrder (order : Order) : Bool := order.status = "Prebooked"

/-- `handleCancelOrder`: refuse (no write) unless the order is `Prebooked`;
otherwise merge `status = "Cancelled"`, `paymentStatus` mapped `Paid ↦
Refunded` and anything else to `Pending`, and `updatedAt =
serverTimestamp()` (the mutation time `now`). -/
def handleCancelOrder (now : Timestamp) (order : Order) : Option Order :=
  if !canCancelOrder order then
    none
  else
    some { order with
      status := "Cancelled"
      paymentStatus := if order.paymentStatus = "Paid" then "Refunded" else "Pending"
      updatedAt := some now }

/-- `handlePayOnline`: refuse re-paying an already-`Paid` order and paying a
`Cancelled` order; otherwise merge `paymentStatus = "Paid"` and refresh
`updatedAt` to the mutation time. -/
def handlePayOnline (now : Timestamp) (order : Order) : Option Order :=
  if order.paymentStatus = "Paid" then
    none
  else if order.status = "Cancelled" then
    none
  else
    some { order with paymentStatus := "Paid", updatedAt := some now }

/-! ## Meal-window calendar and admission control (part_002 revision of
EmployeePage.js, the revision that defines `getNextMealWindow` and the
successor-gated `handlePrebook`) -/

/-- `getCurrentMealWindow` (part_002): hour 7–11 Breakfast, 12–15 Lunch,
16–18 Snacks, 19–23 Dinner, all bounds inclusive; otherwise no window. -/
def getCurrentMealWindow (hour : Nat) : Option String :=
  if 7 ≤ hour ∧ hour ≤ 11 then some "Breakfast"
  else if 12 ≤ hour ∧ hour ≤ 15 then some "Lunch"
  else if 16 ≤ hour ∧ hour ≤ 18 then some "Snacks"
  else if 19 ≤ hour ∧ hour ≤ 23 then some "Dinner"
  else none

/-- `getNextMealWindow` (part_002): the cyclic successor
Breakfast→Lunch→Snacks→Dinner→Breakfast, `null` propagated. -/
def getNextMealWindow : Option String → Option String
  | none => none
  | some w =>
      if w = "Breakfast" then some "Lunch"
      else if w = "Lunch" then some "Snacks"
      else if w = "Snacks" then some "Dinner"
      else if w = "Dinner" then some "Breakfast"
      else none

/-- `isItemAvailable`: a string value is trimmed, lower-cased, and matched
against yes/y/true/available; any other value is reduced to JS truthiness
(`!!v`), so absence, `false`, `0`, `""` are all unavailable. -/
def isItemAvailable (item : MenuItem) : Bool :=
  match item.available with
  | .str v =>
      let s := jsToLower (jsTrim v)
      s = "yes" || s = "y" || s = "true" || s = "available"
  | v => jsTruthy v

/-- The fields `handlePrebook`/`handleBook` pass to `addDoc` (besides the
two `serverTimestamp()` fields, which the server assigns). -/
structure OrderDoc where
  itemId : Option String
  name : String
  price : ℚ
  userId : String
  status : String
  paymentStatus : String
  date : Int
  deriving DecidableEq, Repr

/-- `handlePrebook` (part_002): deny without a linked user id, outside any
window, when the item's category is not the successor window, or when the
item is unavailable; otherwise create a `Prebooked`/`Pending` order for
today.  `hour` is the wall-clock hour `getCurrentMealWindow` reads,
`today` the calendar-day key of the creation instant. -/
def handlePrebook (userId : String) (hour : Nat) (today : Int)
    (item : MenuItem) : Except String OrderDoc :=
  if userId = "" then
    .error "No Employee ID linked to this account."
  else
    let nowWindow := getCurrentMealWindow hour
    let itemCategory := if item.category = "" then "Other" else item.category
    let intendedPrebookWindow := getNextMealWindow nowWindow
    match nowWindow with
    | none =>
        .error "Pre-booking is only available during meal windows (Breakfast / Lunch / Snacks / Dinner)."
    | some _ =>
        if intendedPrebookWindow ≠ some itemCategory then
          .error (item.name ++ " can be pre-booked only for its window: " ++ itemCategory)
        else if isItemAvailable item = false then
          .error (item.name ++ " is not available right now.")
        else
          .ok { itemId := item.id
                name := if item.name = "" then "item" else item.name
                price := item.price
                userId := userId
                status := "Prebooked"
                paymentStatus := "Pending"
                date := today }

/-! ## Live queue estimate (src/pages/EmployeePage.js) -/

/-- The result shape of `computeQueueEstimate` (the `etaString` rendering of
`eta` is presentation; the model carries the underlying `eta` instant). -/
structure QueueEstimate where
  activeCount : Nat
  estMinutes : Int
  etaMs : Int
  deriving DecidableEq, Repr

/-- `ACTIVE_STATUSES` of `computeQueueEstimate`. -/
def ACTIVE_STATUSES : List String := ["Prebooked", "Preparing", "Ready"]

/-- `computeQueueEstimate`: `null` (here `none`) when the user has no orders
or no active ones; otherwise `ceil`-free estimate `max 1 (round(active × 8 ÷
2))` minutes and an ETA `nowMs` + that many minutes. -/
def computeQueueEstimate (nowMs : Int) (orders : List Order) : Option QueueEstimate :=
  if orders.length = 0 then none
  else
    let active := orders.filter (fun o => ACTIVE_STATUSES.contains o.status)
    if active.length = 0 then none
    else
      let estMinutes := max 1 (jsRound ((active.length * 8 : ℚ) / 2))
      some { activeCount := active.length
             estMinutes := estMinutes
             etaMs := nowMs + estMinutes * 60000 }

/-! ## Admin analytics (src/pages/AdminPage.js, first revision — the one
defining the heatmap, forecast and simulator) -/

/-- The result shape of `computeAiInsights`. -/
structure AiInsights where
  consideredOrders : Nat
  timeSavedMinutes : Int
  avgPrepTimeMinutes : ℚ
  wasteAvoidedKg : ℚ
  cancelledCount : Nat
  deriving DecidableEq, Repr

/-- The `(updatedAt − createdAt)` duration of an order in minutes, when both
timestamps are present. -/
def prepMinutes (o : Order) : Option ℚ :=
  match o.createdAt, o.updatedAt with
  | some c, some u => some (((u.ms - c.ms : Int) : ℚ) / 60000)
  | _, _ => none

/-- `computeAiInsights` (AdminPage.js): zero shape on an empty snapshot;
otherwise over orders of the trailing 7 days (by `date`, absent dates kept):
mean prep duration of Ready/Completed orders with duration in (0, 180) min,
time saved against a 12-minute baseline, and 0.25 kg waste avoided per
cancelled order.  `today` is the day key `daysAgoString` subtracts from. -/
def computeAiInsights (today : Int) (orders : List Order) : AiInsights :=
  if orders.length = 0 then
    { consideredOrders := 0, timeSavedMinutes := 0, avgPrepTimeMinutes := 0
      wasteAvoidedKg := 0, cancelledCount := 0 }
  else
    let cutoff := today - 7
    let recent := orders.filter (fun o =>
      match o.date with
      | none => true
      | some d => cutoff ≤ d)
    let completedLike := recent.filterMap (fun o =>
      if jsToLower o.status = "ready" ∨ jsToLower o.status = "completed" then
        match prepMinutes o with
        | some diffMin => if 0 < diffMin ∧ diffMin < 180 then some diffMin else none
        | none => none
      else none)
    -- the source's `else if status === "cancelled"` branch: "cancelled" never
    -- equals "ready"/"completed", so the else-guard is redundant
    let cancelledCount := (recent.filter (fun o => jsToLower o.status = "cancelled")).length
    let completedCount := completedLike.length
    let avgPrepTimeMinutes : ℚ :=
      if completedCount = 0 then 0 else completedLike.sum / completedCount
    -- `avgPrepTimeMinutes || BASELINE`: 0 is falsy
    let perOrderSaving : ℚ :=
      max 0 (12 - (if avgPrepTimeMinutes = 0 then 12 else avgPrepTimeMinutes))
    let timeSavedMinutes := jsRound (perOrderSaving * completedCount)
    -- `toFixed(2)` is exact on multiples of 0.25
    let wasteAvoidedKg : ℚ := cancelledCount * (1 / 4)
    { consideredOrders := recent.length
      timeSavedMinutes := timeSavedMinutes
      avgPrepTimeMinutes := if completedCount = 0 then 0 else avgPrepTimeMinutes
      wasteAvoidedKg := wasteAvoidedKg
      cancelledCount := cancelledCount }

/-- One row of the SLA per-day table. -/
structure SlaDay where
  date : Int
  completed : Nat
  avgPrepMinutes : ℚ
  onTimePercent : Int
  deriving DecidableEq, Repr

/-- The result shape of `computeSlaStats`. -/
structure SlaStats where
  totalCompleted : Nat
  avgPrepMinutes : ℚ
  slaOnTimePercent : Int
  perDay : List SlaDay
  deriving DecidableEq, Repr

/-- The qualifying durations `computeSlaStats` buckets under day `key`:
Ready/Completed orders dated `key` with both timestamps and a duration in
(0, 240) minutes.  (In the source each order mutates the unique bucket of
its own `date`; collecting per key is the same bucketing.) -/
def slaDurations (orders : List Order) (key : Int) : List ℚ :=
  orders.filterMap (fun o =>
    if (jsToLower o.status = "ready" ∨ jsToLower o.status = "completed") ∧ o.date = some key then
      match prepMinutes o with
      | some diffMin => if 0 < diffMin ∧ diffMin < 240 then some diffMin else none
      | none => none
    else none)

/-- The trailing-7-day key list `[today-6, …, today]` both admin reducers
build (the source loop runs `i = 6` down to `0`, pushing `today − i`). -/
def trailingDays (today : Int) : List Int :=
  (List.range 7).map (fun i => today - (6 - (i : Int)))

/-- `computeSlaStats` (AdminPage.js): zero shape on an empty snapshot;
otherwise, per trailing day, count, mean duration and rounded percentage of
durations ≤ 15 minutes, plus the aggregate over the 7 days. -/
def computeSlaStats (today : Int) (orders : List Order) : SlaStats :=
  if orders.length = 0 then
    { totalCompleted := 0, avgPrepMinutes := 0, slaOnTimePercent := 0, perDay := [] }
  else
    let SLA_MINUTES : ℚ := 15
    let dayList := trailingDays today
    let perDay := dayList.map (fun key =>
      let ds := slaDurations orders key
      let completed := ds.length
      let onTimeCount := (ds.filter (fun d => d ≤ SLA_MINUTES)).length
      { date := key
        completed := completed
        avgPrepMinutes := if completed = 0 then 0 else ds.sum / completed
        onTimePercent :=
          if completed = 0 then 0
          else jsRound (((onTimeCount : ℚ) / completed) * 100) : SlaDay })
    let totalCompleted := (dayList.map (fun key => (slaDurations orders key).length)).sum
    let totalMinutes := (dayList.map (fun key => (slaDurations orders key).sum)).sum
    let totalOnTime :=
      (dayList.map (fun key =>
        ((slaDurations orders key).filter (fun d => d ≤ SLA_MINUTES)).length)).sum
    { totalCompleted := totalCompleted
      avgPrepMinutes := if totalCompleted = 0 then 0 else totalMinutes / totalCompleted
      slaOnTimePercent :=
        if totalCompleted = 0 then 0
        else jsRound (((totalOnTime : ℚ) / totalCompleted) * 100)
      perDay := perDay }

/-- One entry of `TIME_SLOTS` (the source's `from`/`to` hour bounds; `from`
is a Lean keyword, hence `fromHour`/`toHour`). -/
structure HeatSlot where
  id : String
  fromHour : Nat
  toHour : Nat
  deriving DecidableEq, Repr, Inhabited

/-- `TIME_SLOTS` of AdminPage.js. -/
def TIME_SLOTS : List HeatSlot :=
  [⟨"breakfast", 7, 10⟩, ⟨"lunch", 12, 15⟩, ⟨"snacks", 16, 18⟩, ⟨"dinner", 19, 23⟩]

/-- `getHour(o)`: the local hour of `createdAt`, absent when the timestamp
is missing. -/
def getHour (o : Order) : Option Nat := o.createdAt.map Timestamp.hour

/-- One heatmap row: day key and the per-slot counts (the source's
`row.slots` object, keyed by slot id). -/
structure HeatRow where
  date : Int
  slots : List (String × Nat)
  deriving DecidableEq, Repr

/-- The result shape of `computeDemandHeatmap`. -/
structure Heatmap where
  rows : List HeatRow
  max : Nat
  deriving DecidableEq, Repr

/-- The count of one heatmap cell: orders created on `dateKey` whose hour
lies in `[fromHour, toHour)`. -/
def heatCellCount (orders : List Order) (dateKey : Int) (slot : HeatSlot) : Nat :=
  (orders.filter (fun o =>
    decide (o.date = some dateKey) &&
      match getHour o with
      | none => false
      | some h => decide (slot.fromHour ≤ h) && decide (h < slot.toHour))).length

/-- `computeDemandHeatmap` (AdminPage.js): `{rows: [], max: 0}` on an empty
snapshot; otherwise 7 day-rows of `TIME_SLOTS` cell counts and
`max = maxCount || 1` (the running maximum, floored at 1 when every cell is
zero). -/
def computeDemandHeatmap (today : Int) (orders : List Order) : Heatmap :=
  if orders.length = 0 then { rows := [], max := 0 }
  else
    let rows := (trailingDays today).map (fun dateKey =>
      { date := dateKey
        slots := TIME_SLOTS.map (fun slot => (slot.id, heatCellCount orders dateKey slot)) : HeatRow })
    let maxCount := rows.foldl (fun m row => row.slots.foldl (fun m p => max m p.2) m) 0
    { rows := rows, max := if maxCount = 0 then 1 else maxCount }

/-- The result shape of `computeNextLunchForecast`. -/
structure Forecast where
  forecast : Int
  lower : Int
  upper : Int
  deriving DecidableEq, Repr

/-- `new Date(dateKey).getDay()` on the day-number encoding of date keys:
weekdays repeat every 7 days. -/
def dayOfWeek (d : Int) : Int := d % 7

/-- Bump the count of `d` in the insertion-ordered association list
modelling the `byDate` object. -/
def bumpDate (acc : List (Int × Nat)) (d : Int) : List (Int × Nat) :=
  acc.map (fun p => if p.1 = d then (p.1, p.2 + 1) else p)

/-- `computeNextLunchForecast` (AdminPage.js): zero shape on an empty
snapshot; otherwise count lunch-slot orders per prior same-weekday date
(today excluded; a qualifying date enters the map at 0 even if the order's
hour is outside the lunch slot), average the top 3 counts and report
`round(avg)` with the asymmetric −10 % / +15 % band.  The source's `0.9`
and `1.15` float literals are carried as exact rationals. -/
def computeNextLunchForecast (today : Int) (orders : List Order) : Forecast :=
  if orders.length = 0 then { forecast := 0, lower := 0, upper := 0 }
  else
    let todayWeekday := dayOfWeek today
    let lunchSlot := TIME_SLOTS[1]!
    let byDate := orders.foldl (fun acc o =>
      match o.date, getHour o with
      | some d, some h =>
          if dayOfWeek d ≠ todayWeekday then acc
          else if d = today then acc
          else
            let acc := if acc.lookup d = none then acc ++ [(d, 0)] else acc
            if lunchSlot.fromHour ≤ h ∧ h < lunchSlot.toHour then bumpDate acc d else acc
      | _, _ => acc) ([] : List (Int × Nat))
    let counts := ((byDate.map Prod.snd).mergeSort (fun a b => b ≤ a)).take 3
    if counts.length = 0 then { forecast := 0, lower := 0, upper := 0 }
    else
      let avg : ℚ := (counts.map (fun n => (n : ℚ))).sum / counts.length
      let forecast := jsRound avg
      { forecast := forecast
        lower := max 0 (jsRound ((forecast : ℚ) * (9 / 10)))
        upper := jsRound ((forecast : ℚ) * (23 / 20)) }

/-! ## Queue simulator (src/pages/AdminPage.js) -/

/-- The parameter object of `runQueueSimulation`. -/
structure SimParams where
  durationMinutes : Nat
  newOrdersPerMin : ℚ
  stations : ℚ
  avgPrepMinutes : ℚ
  deriving DecidableEq, Repr

/-- The loop state of `runQueueSimulation`: current queue, running total and
running maximum. -/
structure SimState where
  queue : ℚ
  totalQueue : ℚ
  maxQueue : ℚ
  deriving DecidableEq, Repr

/-- One simulated minute: `incoming = max(0, round(newOrdersPerMin +
noise))`, `queue = max(0, queue + incoming − stations ÷ avgPrepMinutes)`,
accumulate total and maximum.  `noise` is the minute's random draw. -/
def simStep (p : SimParams) (noise : ℚ) (s : SimState) : SimState :=
  let capacityPerMin := p.stations / p.avgPrepMinutes
  let incoming : ℚ := max 0 ((jsRound (p.newOrdersPerMin + noise) : ℚ))
  let queue := max 0 (s.queue + incoming - capacityPerMin)
  { queue := queue
    totalQueue := s.totalQueue + queue
    maxQueue := max s.maxQueue queue }

/-- The simulator state after `t` simulated minutes, for the draw sequence
`noise` (minute `t` uses `noise t`). -/
def simStateAt (p : SimParams) (noise : Nat → ℚ) : Nat → SimState
  | 0 => { queue := 0, totalQueue := 0, maxQueue := 0 }
  | t + 1 => simStep p (noise t) (simStateAt p noise t)

/-- The output object of `runQueueSimulation`. -/
structure SimResult where
  maxQueue : Int
  avgQueue : ℚ
  estMaxWait : ℚ
  deriving DecidableEq, Repr

/-- `runQueueSimulation`: run `durationMinutes` steps and report the rounded
peak, the average rounded to 1 decimal, and the estimated worst-case wait
(0 when capacity is 0). -/
def runQueueSimulation (p : SimParams) (noise : Nat → ℚ) : SimResult :=
  let capacityPerMin := p.stations / p.avgPrepMinutes
  let final := simStateAt p noise p.durationMinutes
  let avgQueue := final.totalQueue / (p.durationMinutes : ℚ)
  { maxQueue := jsRound final.maxQueue
    avgQueue := (jsRound (avgQueue * 10) : ℚ) / 10
    estMaxWait :=
      if capacityPerMin = 0 then 0
      else (jsRound ((final.maxQueue / capacityPerMin) * 10) : ℚ) / 10 }

/-! ## Vendor menu writes (src/pages/VendorMenuPage.js) -/

/-- A JS number as `Number(..)` can produce it from the price form field:
NaN, ±Infinity, or a finite value. -/
inductive JSNumber where
  | nan
  | posInf
  | negInf
  | fin (q : ℚ)
  deriving DecidableEq, Repr

/-- `isNaN(x)`. -/
def JSNumber.isNaN : JSNumber → Bool
  | .nan => true
  | _ => false

/-- The JS comparison `x < 0`. -/
def JSNumber.ltZero : JSNumber → Bool
  | .nan => false
  | .posInf => false
  | .negInf => true
  | .fin q => q < 0

/-- Whether a JS number is finite. -/
def JSNumber.isFinite : JSNumber → Bool
  | .fin _ => true
  | _ => false

/-- The new-item / edit-item form state: `price` is carried as the numeric
value `Number(form.price)` yields for the typed text (e.g. `"1e999"` yields
`posInf`), `available` as the loosely-typed checkbox value the source
coerces with `!!`. -/
structure NewItemForm where
  name : String
  price : JSNumber
  image : String
  available : JsVal
  category : String
  deriving DecidableEq, Repr

/-- A menu document as the vendor write stores it. -/
structure MenuDoc where
  name : String
  price : JSNumber
  image : String
  available : Bool
  category : String
  deriving DecidableEq, Repr

/-- The validation and field normalization shared by `handleAddItem` and
`handleSaveEdit`: reject an all-whitespace name, a NaN price and a negative
price (no write); otherwise store the trimmed name, the price number as-is,
`!!available`, and `category || "Lunch"`. -/
def buildMenuDoc (form : NewItemForm) : Option MenuDoc :=
  if jsTrim form.name = "" then none
  else if form.price.isNaN || form.price.ltZero then none
  else
    some { name := jsTrim form.name
           price := form.price
           image := jsTrim form.image
           available := jsTruthy form.available
           category := if form.category = "" then "Lunch" else form.category }

/-- `handleAddItem`: validate and `addDoc` the new-item form. -/
def handleAddItem (form : NewItemForm) : Option MenuDoc := buildMenuDoc form

/-- `handleSaveEdit`: no-op without an item being edited; otherwise validate
and `updateDoc` the edited fields onto document `editId`. -/
def handleSaveEdit (editId : Option String) (form : NewItemForm) :
    Option (String × MenuDoc) :=
  match editId with
  | none => none
  | some id => (buildMenuDoc form).map (fun d => (id, d))

/-! ## Spec-side predicates and concrete documents used by the theorems -/

/-- The transition table of spec §4.3 restricted to the vendor role (the
pairs listed by the transition-soundness property): Prebooked→Preparing /
Ready / Completed, Preparing→Ready / Completed, Ready→Completed. -/
def vendorAllowedPair (fromStatus toStatus : String) : Prop :=
  (fromStatus = "Prebooked" ∧
    (toStatus = "Preparing" ∨ toStatus = "Ready" ∨ toStatus = "Completed")) ∨
  (fromStatus = "Preparing" ∧ (toStatus = "Ready" ∨ toStatus = "Completed")) ∨
  (fromStatus = "Ready" ∧ toStatus = "Completed")

instance (a b : String) : Decidable (vendorAllowedPair a b) := by
  unfold vendorAllowedPair
  infer_instance

/-- A concrete completed order instantiating the state-machine theorems. -/
def completedOrder : Order :=
  { itemId := some "i1", name := "Dosa", price := 30, userId := "E1"
    status := "Completed", paymentStatus := "Paid", date := some 0
    createdAt := some ⟨0, 12⟩, updatedAt := some ⟨600000, 12⟩ }

/-- A concrete prebooked, already-paid order. -/
def prebookedPaidOrder : Order :=
  { itemId := some "i2", name := "Idli", price := 20, userId := "E1"
    status := "Prebooked", paymentStatus := "Paid", date := some 0
    createdAt := some ⟨0, 9⟩, updatedAt := some ⟨0, 9⟩ }

/-- A concrete prebooked order whose server timestamps are already set. -/
def stalePrebookedOrder : Order :=
  { itemId := some "i3", name := "Vada", price := 15, userId := "E2"
    status := "Prebooked", paymentStatus := "Pending", date := some 0
    createdAt := some ⟨0, 9⟩, updatedAt := some ⟨0, 9⟩ }

/-- A menu item carrying a given `available` value (the other fields do not
enter `isItemAvailable`). -/
def itemWithAvail (v : JsVal) : MenuItem :=
  { id := none, name := "x", price := 0, category := "Lunch", available := v }

/-- A concrete available Snacks item. -/
def snacksItem : MenuItem :=
  { id := some "m1", name := "Samosa", price := 12, category := "Snacks"
    available := .bool true }

/-- A concrete new-item form whose price field parses to Infinity (e.g. the
typed text "1e999"). -/
def infinitePriceForm : NewItemForm :=
  { name := "Tea", price := .posInf, image := "", available := .bool true
    category := "Lunch" }

/-- A concrete valid new-item form. -/
def validItemForm : NewItemForm :=
  { name := " Coffee ", price := .fin 18, image := "", available := .bool true
    category := "" }

/-! ## Theorems -/

/-- The source guard `canTransition` decides exactly the vendor rows of the
§4.3 table. -/
theorem canTransition_iff_vendorAllowedPair (a b : String) :
    canTransition a b = true ↔ vendorAllowedPair a b := by
  unfold canTransition vendorAllowedPair
  split <;> simp_all [or_assoc]

/-- C1: for every (fromStatus, toStatus) pair outside the §4.3 vendor
transition table, `updateStatus` performs no document mutation (in
particular the order's status is unchanged afterward). -/
theorem vendor_invalid_transition_rejected (o : Order) (newStatus : String)
    (h : ¬ vendorAllowedPair o.status newStatus) :
    updateStatus o newStatus = none := by
  have hc : canTransition o.status newStatus = false := by
    cases hcc : canTransition o.status newStatus
    · rfl
    · exact absurd ((canTransition_iff_vendorAllowedPair _ _).mp hcc) h
  unfold updateStatus
  simp [hc]

theorem vendor_invalid_transition_rejected_witness :
    ¬ vendorAllowedPair "Completed" "Preparing" ∧
      updateStatus completedOrder "Preparing" = none :=
  ⟨by decide, vendor_invalid_transition_rejected completedOrder "Preparing" (by decide)⟩

/-- C5: the successor map `getNextMealWindow` composed 4 times returns the
original window, for each of the 4 named windows (the cyclic successor
Breakfast→Lunch→Snacks→Dinner→Breakfast). -/
theorem nextWindow_cycle :
    getNextMealWindow (getNextMealWindow (getNextMealWindow (getNextMealWindow
      (some "Breakfast")))) = some "Breakfast" ∧
    getNextMealWindow (getNextMealWindow (getNextMealWindow (getNextMealWindow
      (some "Lunch")))) = some "Lunch" ∧
    getNextMealWindow (getNextMealWindow (getNextMealWindow (getNextMealWindow
      (some "Snacks")))) = some "Snacks" ∧
    getNextMealWindow (getNextMealWindow (getNextMealWindow (getNextMealWindow
      (some "Dinner")))) = some "Dinner" :=
  ⟨rfl, rfl, rfl, rfl⟩

/-- C6: the availability normalization yields true on "Yes", "yes ", "Y",
`true` and "available" (case/whitespace-insensitive match against
yes/y/true/available) and false on "", "no", `false`, `undefined` and `0`
(any non-true value, absence included, is unavailable). -/
theorem availability_normalization_cases :
    isItemAvailable (itemWithAvail (.str "Yes")) = true ∧
    isItemAvailable (itemWithAvail (.str "yes ")) = true ∧
    isItemAvailable (itemWithAvail (.str "Y")) = true ∧
    isItemAvailable (itemWithAvail (.bool true)) = true ∧
    isItemAvailable (itemWithAvail (.str "available")) = true ∧
    isItemAvailable (itemWithAvail (.str "")) = false ∧
    isItemAvailable (itemWithAvail (.str "no")) = false ∧
    isItemAvailable (itemWithAvail (.bool false)) = false ∧
    isItemAvailable (itemWithAvail .undef) = false ∧
    isItemAvailable (itemWithAvail (.num 0)) = false := by
  decide

/-- C7: every analytics reducer returns its defined zero-value result on an
empty order snapshot rather than failing: the live queue estimate its
designated `null`, the AI insight / SLA / heatmap / forecast reducers their
all-zero shapes. -/
theorem reducers_tolerate_empty (today nowMs : Int) :
    computeQueueEstimate nowMs [] = none ∧
    computeAiInsights today [] =
      { consideredOrders := 0, timeSavedMinutes := 0, avgPrepTimeMinutes := 0
        wasteAvoidedKg := 0, cancelledCount := 0 } ∧
    computeSlaStats today [] =
      { totalCompleted := 0, avgPrepMinutes := 0, slaOnTimePercent := 0, perDay := [] } ∧
    computeDemandHeatmap today [] = { rows := [], max := 0 } ∧
    computeNextLunchForecast today [] = { forecast := 0, lower := 0, upper := 0 } :=
  ⟨rfl, rfl, rfl, rfl, rfl⟩

/-- C3: cancelling any Prebooked order writes status `Cancelled`, maps
paymentStatus `Paid` to `Refunded` and any other value to `Pending`
(`Pending` in particular stays `Pending`), and stamps the mutation time. -/
theorem cancel_refund_rule (now : Timestamp) (o : Order)
    (h : o.status = "Prebooked") :
    handleCancelOrder now o =
      some { o with
        status := "Cancelled"
        paymentStatus := if o.paymentStatus = "Paid" then "Refunded" else "Pending"
        updatedAt := some now } := by
  unfold handleCancelOrder canCancelOrder
  simp [h]

theorem cancel_refund_rule_witness :
    prebookedPaidOrder.status = "Prebooked" ∧
      handleCancelOrder ⟨120000, 9⟩ prebookedPaidOrder =
        some { prebookedPaidOrder with
          status := "Cancelled"
          paymentStatus := if prebookedPaidOrder.paymentStatus = "Paid" then "Refunded" else "Pending"
          updatedAt := some ⟨120000, 9⟩ } :=
  ⟨rfl, cancel_refund_rule ⟨120000, 9⟩ prebookedPaidOrder rfl⟩

/-- C4 counterexample: the vendor advance Prebooked→Preparing in
VendorOrdersPage.js is an allowed transition that performs a write, yet the
written document is the old one with only `status` replaced — its
`updatedAt` still carries the old stamp instead of the mutation time, so
`updatedAt` is not refreshed on every allowed status transition. -/
theorem vendor_updateStatus_keeps_updatedAt :
    updateStatus stalePrebookedOrder "Preparing" =
      some { stalePrebookedOrder with status := "Preparing" } ∧
    (updateStatus stalePrebookedOrder "Preparing").map Order.updatedAt =
      some (some ⟨0, 9⟩) :=
  ⟨rfl, rfl⟩

/-- C4 amended: `updatedAt` is refreshed to the mutation time by the
employee cancel and by the pay-online payment change, each of which writes
only its named fields; the vendor advance of VendorOrdersPage.js, however,
writes only `status`, leaving `updatedAt` and every other field
unchanged. -/
theorem updatedAt_refresh_amended :
    (∀ (now : Timestamp) (o o' : Order), handleCancelOrder now o = some o' →
      o'.updatedAt = some now ∧ o'.itemId = o.itemId ∧ o'.name = o.name ∧
        o'.price = o.price ∧ o'.userId = o.userId ∧ o'.date = o.date ∧
        o'.createdAt = o.createdAt) ∧
    (∀ (now : Timestamp) (o o' : Order), handlePayOnline now o = some o' →
      o'.updatedAt = some now ∧ o'.status = o.status ∧ o'.itemId = o.itemId ∧
        o'.name = o.name ∧ o'.price = o.price ∧ o'.userId = o.userId ∧
        o'.date = o.date ∧ o'.createdAt = o.createdAt) ∧
    (∀ (o : Order) (s : String) (o' : Order), updateStatus o s = some o' →
      o' = { o with status := s }) := by
  refine ⟨?_, ?_, ?_⟩
  · intro now o o' h
    unfold handleCancelOrder at h
    split at h
    · exact Option.noConfusion h
    · rw [Option.some.injEq] at h
      subst h
      exact ⟨rfl, rfl, rfl, rfl, rfl, rfl, rfl⟩
  · intro now o o' h
    unfold handlePayOnline at h
    split at h
    · exact Option.noConfusion h
    · split at h
      · exact Option.noConfusion h
      · rw [Option.some.injEq] at h
        subst h
        exact ⟨rfl, rfl, rfl, rfl, rfl, rfl, rfl, rfl⟩
  · intro o s o' h
    unfold updateStatus at h
    split at h
    · rw [Option.some.injEq] at h
      exact h.symm
    · exact Option.noConfusion h

/-- C9 counterexample: on the empty order list the heatmap returns
`{rows: [], max: 0}` — its `max` is 0, not at least 1, so the claimed bound
fails for the empty order list. -/
theorem heatmap_empty_max_zero :
    computeDemandHeatmap 0 [] = { rows := [], max := 0 } ∧
      ¬ 1 ≤ (computeDemandHeatmap 0 []).max :=
  ⟨rfl, by decide⟩

/-- C9 amended: for every non-empty order list — in particular one where
every heatmap cell count is zero — the returned `max` is at least 1
(`maxCount || 1`); on the empty list the function instead returns no rows at
all, so the consumer's `value ÷ max` normalization never divides by zero. -/
theorem heatmap_max_pos_of_nonempty (today : Int) (orders : List Order)
    (h : orders ≠ []) : 1 ≤ (computeDemandHeatmap today orders).max := by
  unfold computeDemandHeatmap
  rw [if_neg (fun hl => h (List.length_eq_zero.mp hl))]
  dsimp only
  split
  · exact le_refl 1
  · omega

theorem heatmap_max_pos_of_nonempty_witness :
    ([completedOrder] : List Order) ≠ [] ∧
      1 ≤ (computeDemandHeatmap 0 [completedOrder]).max :=
  ⟨by simp, heatmap_max_pos_of_nonempty 0 [completedOrder] (by simp)⟩

/-- C10 counterexample: a price input parsing to Infinity (such as the typed
text "1e999") passes the `isNaN || < 0` guard unchanged, so the vendor
create-item operation stores a menu document whose `price` is not a finite
number, against the claimed invariant. -/
theorem addItem_stores_infinite_price :
    handleAddItem infinitePriceForm =
      some { name := "Tea", price := .posInf, image := "", available := true
             category := "Lunch" } ∧
      (handleAddItem infinitePriceForm).map (fun d => d.price.isFinite) =
        some false :=
  ⟨rfl, rfl⟩

/-- C10 amended: every menu document written by the vendor create-item or
save-edit operation has `available` stored as a strict boolean (`!!` of the
form value), a `price` that is neither NaN nor negative (NaN and negative
inputs are rejected with no mutation — but an infinite price passes the
guard and is stored), a non-empty trimmed `name`, and a non-empty
`category` (defaulting to "Lunch"). -/
theorem menu_write_field_invariants :
    (∀ form doc, handleAddItem form = some doc →
      doc.name = jsTrim form.name ∧ doc.name ≠ "" ∧ doc.price.isNaN = false ∧
        doc.price.ltZero = false ∧ doc.available = jsTruthy form.available ∧
        doc.category ≠ "") ∧
    (∀ form, jsTrim form.name = "" ∨ form.price.isNaN = true ∨
        form.price.ltZero = true → handleAddItem form = none) ∧
    (∀ eid form p, handleSaveEdit eid form = some p →
      eid = some p.1 ∧ handleAddItem form = some p.2) := by
  refine ⟨?_, ?_, ?_⟩
  · intro form doc h
    unfold handleAddItem buildMenuDoc at h
    by_cases hname : jsTrim form.name = ""
    · rw [if_pos hname] at h
      exact Option.noConfusion h
    · rw [if_neg hname] at h
      by_cases hprice : (form.price.isNaN || form.price.ltZero) = true
      · rw [if_pos hprice] at h
        exact Option.noConfusion h
      · rw [if_neg hprice] at h
        simp only [Bool.or_eq_true, not_or, Bool.not_eq_true] at hprice
        rw [Option.some.injEq] at h
        subst h
        refine ⟨rfl, hname, hprice.1, hprice.2, rfl, ?_⟩
        dsimp only
        split
        · decide
        · next hcat => exact hcat
  · intro form hcase
    rcases hcase with hn | hp | hp
    · unfold handleAddItem buildMenuDoc
      rw [if_pos hn]
    · unfold handleAddItem buildMenuDoc
      split
      · rfl
      · rw [if_pos (by simp [hp])]
    · unfold handleAddItem buildMenuDoc
      split
      · rfl
      · rw [if_pos (by simp [hp])]
  · intro eid form p h
    unfold handleSaveEdit at h
    match eid, h with
    | some i, h =>
      cases hb : buildMenuDoc form with
      | none => rw [hb] at h; exact Option.noConfusion h
      | some d =>
        rw [hb] at h
        have h' : (i, d) = p := Option.some.inj h
        subst h'
        exact ⟨rfl, hb⟩

/-- One-step invariant of the simulator loop: after `simStep` the queue is
non-negative, the running maximum dominates it, and the running total grows
by at most one more multiple of the running maximum. -/
theorem simStep_invariant (p : SimParams) (noise : ℚ) (s : SimState) (t : ℚ)
    (hm : 0 ≤ s.maxQueue) (ht0 : 0 ≤ t) (ht : s.totalQueue ≤ t * s.maxQueue) :
    0 ≤ (simStep p noise s).queue ∧
      (simStep p noise s).queue ≤ (simStep p noise s).maxQueue ∧
      0 ≤ (simStep p noise s).maxQueue ∧
      (simStep p noise s).totalQueue ≤ (t + 1) * (simStep p noise s).maxQueue := by
  unfold simStep
  dsimp only
  refine ⟨le_max_left 0 _, le_max_right _ _, le_trans hm (le_max_left _ _), ?_⟩
  have h2 : (0 : ℚ) ≤ max 0 (s.queue + max 0 ((jsRound (p.newOrdersPerMin + noise) : ℚ))
      - p.stations / p.avgPrepMinutes) := le_max_left _ _
  have h3 : max 0 (s.queue + max 0 ((jsRound (p.newOrdersPerMin + noise) : ℚ))
        - p.stations / p.avgPrepMinutes) ≤
      max s.maxQueue (max 0 (s.queue + max 0 ((jsRound (p.newOrdersPerMin + noise) : ℚ))
        - p.stations / p.avgPrepMinutes)) := le_max_right _ _
  have h4 : t * s.maxQueue ≤
      t * max s.maxQueue (max 0 (s.queue + max 0 ((jsRound (p.newOrdersPerMin + noise) : ℚ))
        - p.stations / p.avgPrepMinutes)) :=
    mul_le_mul_of_nonneg_left (le_max_left _ _) ht0
  linarith

/-- Invariant of the whole run: at every minute `t` the queue is
non-negative, the running maximum is non-negative and dominates the queue,
and the running total is at most `t` times the running maximum. -/
theorem simStateAt_invariant (p : SimParams) (noise : Nat → ℚ) (t : Nat) :
    0 ≤ (simStateAt p noise t).queue ∧
      (simStateAt p noise t).queue ≤ (simStateAt p noise t).maxQueue ∧
      0 ≤ (simStateAt p noise t).maxQueue ∧
      (simStateAt p noise t).totalQueue ≤ (t : ℚ) * (simStateAt p noise t).maxQueue := by
  induction t with
  | zero => simp [simStateAt]
  | succ t ih =>
    obtain ⟨-, -, hm, ht⟩ := ih
    have := simStep_invariant p (noise t) (simStateAt p noise t) (t : ℚ) hm
      (Nat.cast_nonneg t) ht
    obtain ⟨h1, h2, h3, h4⟩ := this
    refine ⟨h1, h2, h3, ?_⟩
    show (simStep p (noise t) (simStateAt p noise t)).totalQueue ≤ _
    push_cast
    exact h4

/-- C8 counterexample: with the valid parameters durationMinutes = 1,
newOrdersPerMin = 3, stations = 3, avgPrepMinutes = 5 and the feasible
zero-noise draw, the single minute ends with queue 2.4, so the reported
`maxQueue` is round(2.4) = 2 while the reported `avgQueue` is 2.4 — the
reported maximum is strictly below the reported average. -/
theorem sim_reported_max_lt_avg :
    (runQueueSimulation ⟨1, 3, 3, 5⟩ (fun _ => 0)).maxQueue = 2 ∧
      (runQueueSimulation ⟨1, 3, 3, 5⟩ (fun _ => 0)).avgQueue = 12 / 5 ∧
      ¬ ((runQueueSimulation ⟨1, 3, 3, 5⟩ (fun _ => 0)).avgQueue ≤
          ((runQueueSimulation ⟨1, 3, 3, 5⟩ (fun _ => 0)).maxQueue : ℚ)) := by
  have hstate : simStateAt ⟨1, 3, 3, 5⟩ (fun _ => 0) 1 =
      { queue := 12 / 5, totalQueue := 12 / 5, maxQueue := 12 / 5 } := by
    show simStep ⟨1, 3, 3, 5⟩ 0 (simStateAt ⟨1, 3, 3, 5⟩ (fun _ => 0) 0) = _
    unfold simStateAt simStep jsRound
    norm_num
  refine ⟨?_, ?_, ?_⟩ <;>
    · unfold runQueueSimulation
      dsimp only
      rw [hstate]
      unfold jsRound
      norm_num

/-- C8 amended: for every valid (positive) parameter set and every noise
sequence, the simulated queue is non-negative at every minute, and the
exact running maximum dominates the exact average queue; the reported
values are those two after rounding (maximum to an integer, average to one
decimal), which can place the reported maximum below the reported average
by less than one rounding step, as the counterexample exhibits. -/
theorem simulator_nonneg_max_ge_avg (p : SimParams) (noise : Nat → ℚ)
    (hd : 0 < p.durationMinutes) (_hn : 0 < p.newOrdersPerMin)
    (_hs : 0 < p.stations) (_ha : 0 < p.avgPrepMinutes) :
    (∀ t, 0 ≤ (simStateAt p noise t).queue) ∧
      (simStateAt p noise p.durationMinutes).totalQueue / (p.durationMinutes : ℚ) ≤
        (simStateAt p noise p.durationMinutes).maxQueue := by
  constructor
  · exact fun t => (simStateAt_invariant p noise t).1
  · obtain ⟨-, -, hm, ht⟩ := simStateAt_invariant p noise p.durationMinutes
    have hdq : (0 : ℚ) < (p.durationMinutes : ℚ) := by exact_mod_cast hd
    rw [div_le_iff₀ hdq]
    calc (simStateAt p noise p.durationMinutes).totalQueue
        ≤ (p.durationMinutes : ℚ) * (simStateAt p noise p.durationMinutes).maxQueue := ht
      _ = (simStateAt p noise p.durationMinutes).maxQueue * (p.durationMinutes : ℚ) :=
          mul_comm _ _

theorem simulator_nonneg_max_ge_avg_witness :
    (0 < (1 : ℕ) ∧ (0 : ℚ) < 3 ∧ (0 : ℚ) < 3 ∧ (0 : ℚ) < 5) ∧
      ((∀ t, 0 ≤ (simStateAt ⟨1, 3, 3, 5⟩ (fun _ => 0) t).queue) ∧
        (simStateAt ⟨1, 3, 3, 5⟩ (fun _ => 0) 1).totalQueue / ((1 : ℕ) : ℚ) ≤
          (simStateAt ⟨1, 3, 3, 5⟩ (fun _ => 0) 1).maxQueue) :=
  ⟨⟨by norm_num, by norm_num, by norm_num, by norm_num⟩,
    simulator_nonneg_max_ge_avg ⟨1, 3, 3, 5⟩ (fun _ => 0)
      (by norm_num) (by norm_num) (by norm_num) (by norm_num)⟩

/-- The meal-window calendar yields only the four named windows. -/
theorem getCurrentMealWindow_cases (hour : Nat) :
    getCurrentMealWindow hour = none ∨
      getCurrentMealWindow hour = some "Breakfast" ∨
      getCurrentMealWindow hour = some "Lunch" ∨
      getCurrentMealWindow hour = some "Snacks" ∨
      getCurrentMealWindow hour = some "Dinner" := by
  unfold getCurrentMealWindow
  split_ifs <;> simp

/-- C2: with a linked employee id, the part_002 pre-booking operation
succeeds iff the current window is not none, the item's category equals the
successor of the current window, and the item is available — and the
created order's status is "Prebooked".  In particular at hour 13 (window
Lunch, successor Snacks) an available item of category "Snacks" is
pre-booked into a "Prebooked" order. -/
theorem prebook_successor_window (userId : String) (hour : Nat) (today : Int)
    (item : MenuItem) (hu : userId ≠ "") :
    ((∃ d, handlePrebook userId hour today item = .ok d ∧ d.status = "Prebooked") ↔
      (getCurrentMealWindow hour ≠ none ∧
        getNextMealWindow (getCurrentMealWindow hour) = some item.category ∧
        isItemAvailable item = true)) ∧
    (hour = 13 → item.category = "Snacks" → isItemAvailable item = true →
      handlePrebook userId hour today item =
        .ok { itemId := item.id
              name := if item.name = "" then "item" else item.name
              price := item.price
              userId := userId
              status := "Prebooked"
              paymentStatus := "Pending"
              date := today }) := by
  constructor
  · rcases getCurrentMealWindow_cases hour with hw | hw | hw | hw | hw
    · unfold handlePrebook
      rw [if_neg hu, hw]
      simp
    · unfold handlePrebook
      rw [if_neg hu, hw]
      by_cases hc0 : item.category = ""
      · simp [hc0, getNextMealWindow]
      · by_cases hc : item.category = "Lunch"
        · by_cases hav : isItemAvailable item
          · simp [hc0, hc, hav, getNextMealWindow]
          · simp [hc0, hc, hav, getNextMealWindow]
        · simp [hc0, Ne.symm hc, getNextMealWindow]
    · unfold handlePrebook
      rw [if_neg hu, hw]
      by_cases hc0 : item.category = ""
      · simp [hc0, getNextMealWindow]
      · by_cases hc : item.category = "Snacks"
        · by_cases hav : isItemAvailable item
          · simp [hc0, hc, hav, getNextMealWindow]
          · simp [hc0, hc, hav, getNextMealWindow]
        · simp [hc0, Ne.symm hc, getNextMealWindow]
    · unfold handlePrebook
      rw [if_neg hu, hw]
      by_cases hc0 : item.category = ""
      · simp [hc0, getNextMealWindow]
      · by_cases hc : item.category = "Dinner"
        · by_cases hav : isItemAvailable item
          · simp [hc0, hc, hav, getNextMealWindow]
          · simp [hc0, hc, hav, getNextMealWindow]
        · simp [hc0, Ne.symm hc, getNextMealWindow]
    · unfold handlePrebook
      rw [if_neg hu, hw]
      by_cases hc0 : item.category = ""
      · simp [hc0, getNextMealWindow]
      · by_cases hc : item.category = "Breakfast"
        · by_cases hav : isItemAvailable item
          · simp [hc0, hc, hav, getNextMealWindow]
          · simp [hc0, hc, hav, getNextMealWindow]
        · simp [hc0, Ne.symm hc, getNextMealWindow]
  · rintro rfl hcat hav
    unfold handlePrebook
    rw [if_neg hu, show getCurrentMealWindow 13 = some "Lunch" from by decide]
    simp [hcat, hav, getNextMealWindow]

theorem prebook_successor_window_witness :
    ("E1" : String) ≠ "" ∧
      handlePrebook "E1" 13 0 snacksItem =
        .ok { itemId := snacksItem.id
              name := if snacksItem.name = "" then "item" else snacksItem.name
              price := snacksItem.price
              userId := "E1"
              status := "Prebooked"
              paymentStatus := "Pending"
              date := 0 } :=
  ⟨by decide,
    (prebook_successor_window "E1" 13 0 snacksItem (by decide)).2 rfl rfl rfl⟩
